import Mathlib

/-!
Verification of the Welcome-Back-BBQ-Excel filter application.

The repository loads two spreadsheet tables (HRT majors and BBQ attendees),
normalizes their column names, validates that the chosen comparison columns
exist, and computes the anti-join
  non_hrt_attendees = bbq_df[~bbq_df[col].isin(hrt_df[col])]
together with its complement
  hrt_at_bbq = bbq_df[bbq_df[col].isin(hrt_df[col])].

This file embeds that logic shallowly: cell values become an inductive
scalar type, a loaded table becomes a list of column names plus positional
rows, and the pandas operations (column extraction, isin masks,
boolean-mask row selection) become the executable functions below.
-/

/-- A scalar cell value of a loaded spreadsheet: a string, an integer, or
an empty cell (what pandas represents as NaN). -/
inductive Value : Type where
  | str : String → Value
  | int : Int → Value
  | empty : Value
deriving DecidableEq

/-- A loaded table in the style of a pandas DataFrame: ordered column
names and ordered rows, each row a list of cell values positionally
aligned with the columns. -/
structure DataFrame : Type where
  columns : List String
  rows : List (List Value)
deriving DecidableEq

/-- Column extraction, as the pandas expression df[c]: locate the column
position (first occurrence) and read that cell of every row. An absent
column yields the empty list; a too-short row yields an empty cell. -/
def colValues (df : DataFrame) (c : String) : List Value :=
  match df.columns.indexOf? c with
  | some i => df.rows.map (fun r => r.getD i Value.empty)
  | none => []

/-- Membership mask, as pandas Series.isin: one Boolean per entry of s,
true exactly when that entry occurs among the values of other. -/
def isinList (s : List Value) (other : List Value) : List Bool :=
  s.map (fun v => decide (v ∈ other))

/-- Boolean-mask row selection, as the pandas expression df[mask]: keep,
in order, the rows whose mask entry is true. -/
def maskRows : List (List Value) → List Bool → List (List Value)
  | r :: rs, b :: bs => if b then r :: maskRows rs bs else maskRows rs bs
  | _, _ => []

/-- The filter of the app, translated from
bbq_df[~bbq_df[bc].isin(hrt_df[hc])]: the attendee rows whose key value
does not occur in the majors key column. The result keeps all attendee
columns. -/
def non_hrt_attendees (bbq : DataFrame) (bc : String) (hrt : DataFrame) (hc : String) : DataFrame :=
  DataFrame.mk bbq.columns
    (maskRows bbq.rows ((isinList (colValues bbq bc) (colValues hrt hc)).map not))

/-- The complement, translated from
bbq_df[bbq_df[bc].isin(hrt_df[hc])]: the attendee rows whose key value
does occur in the majors key column. -/
def hrt_at_bbq (bbq : DataFrame) (bc : String) (hrt : DataFrame) (hc : String) : DataFrame :=
  DataFrame.mk bbq.columns
    (maskRows bbq.rows (isinList (colValues bbq bc) (colValues hrt hc)))

/-- The key value of one row under column c of df: the cell at the
position of c among the columns of df (an accessor used to state
properties; the position defaults to 0 when the column is absent, a case
the theorems exclude by hypothesis). -/
def rowKey (df : DataFrame) (c : String) (r : List Value) : Value :=
  r.getD ((df.columns.indexOf? c).getD 0) Value.empty

/-- Column validation, translated from validate_dataframe: a missing
table fails, and otherwise the required column must occur among the
(already normalized) column names. -/
def validate_dataframe (df : Option DataFrame) (required_column : String) : Bool :=
  match df with
  | none => false
  | some d => decide (required_column ∈ d.columns)

/-- Outcome of one processing attempt of the app: either the filtered
table, or the list of validation errors, each naming the table and the
missing column exactly as the error messages of the app do. -/
inductive ProcessResult : Type where
  | filtered : DataFrame → ProcessResult
  | columnErrors : List (String × String) → ProcessResult
deriving DecidableEq

/-- The processing step of the main page, translated from main of
streamlit_app.py: validate that both tables hold the comparison column;
only when both pass is the filter computed, and otherwise an error is
reported for each failing table, naming that table and the column. -/
def mainProcess (hrt_df bbq_df : DataFrame) (comparison_column : String) : ProcessResult :=
  let hrt_valid := validate_dataframe (some hrt_df) comparison_column
  let bbq_valid := validate_dataframe (some bbq_df) comparison_column
  if hrt_valid && bbq_valid then
    ProcessResult.filtered (non_hrt_attendees bbq_df comparison_column hrt_df comparison_column)
  else
    ProcessResult.columnErrors
      ((if hrt_valid then [] else [("HRT Majors", comparison_column)]) ++
       (if bbq_valid then [] else [("BBQ Attendees", comparison_column)]))

/-- The Python type name of a sample cell value, as type(x).__name__ in
the data-type check of the testing page (an empty cell is a float NaN in
pandas; dropna removes it before sampling, so that branch is inert). -/
def typeName : Value → String
  | Value.str _ => "str"
  | Value.int _ => "int"
  | Value.empty => "float"

/-- Removal of empty cells, as pandas Series.dropna. -/
def dropna (vs : List Value) : List Value :=
  vs.filter (fun v => decide (v ≠ Value.empty))

/-- The first non-empty sample of a column, as df[c].dropna().iloc[0]
guarded by the emptiness check of the testing page. -/
def firstSample (vs : List Value) : Option Value :=
  (dropna vs).head?

/-- The data-type mismatch check of the testing page: when both columns
have a non-empty sample and the two sample type names differ, a warning
is shown; in every other case no warning is shown. -/
def dtype_warning (hrt : DataFrame) (hc : String) (bbq : DataFrame) (bc : String) : Bool :=
  match firstSample (colValues hrt hc), firstSample (colValues bbq bc) with
  | some a, some b => decide (typeName a ≠ typeName b)
  | _, _ => false

/-- Outcome of the testing page: whether the data-type warning was shown,
and the computed result when validation passed. -/
structure TestOutcome : Type where
  dtypeWarn : Bool
  result : Option DataFrame
deriving DecidableEq

/-- The processing flow of the testing page, translated from main of
pages/testing_area_app.py: the selected columns are validated against the
loaded tables; when both are present the data-type check runs (warning
only) and the filter is computed; otherwise nothing is computed. -/
def testing_main (hrt_df bbq_df : DataFrame) (hc bc : String) : TestOutcome :=
  if hc ∈ hrt_df.columns ∧ bc ∈ bbq_df.columns then
    TestOutcome.mk (dtype_warning hrt_df hc bbq_df bc)
      (some (non_hrt_attendees bbq_df bc hrt_df hc))
  else
    TestOutcome.mk false none

/-- Whitespace as stripped by the Python str.strip default (the ASCII
whitespace characters). -/
def pyIsSpace (c : Char) : Bool :=
  c == ' ' || c == '\t' || c == '\n' || c == '\r' || c == '\x0b' || c == '\x0c'

/-- Python str.strip: remove leading and trailing whitespace. -/
def pyStrip (s : List Char) : List Char :=
  ((s.dropWhile pyIsSpace).reverse.dropWhile pyIsSpace).reverse

/-- Lowercasing of one character as Python str.lower acts on the ASCII
range: an uppercase letter (code 65 to 90) moves down by 32 codepoints,
every other character is unchanged. -/
def pyToLowerChar (c : Char) : Char :=
  if 65 ≤ c.toNat ∧ c.toNat ≤ 90 then Char.ofNat (c.toNat + 32) else c

/-- Python str.lower, applied characterwise. -/
def pyLower (s : List Char) : List Char :=
  s.map pyToLowerChar

/-- Column-name normalization of the loader, translated from
df.columns.str.strip().str.lower(): trim surrounding whitespace, then
lowercase. -/
def normalize_column (s : String) : String :=
  String.mk (pyLower (pyStrip s.data))

/-- The loader, translated from load_excel_file: the parsed table is
returned with every column name normalized; rows are untouched. -/
def load_excel_file (raw : DataFrame) : DataFrame :=
  DataFrame.mk (raw.columns.map normalize_column) raw.rows

/-- The requested name holds an uppercase ASCII letter. -/
def hasUpperAscii (s : String) : Bool :=
  s.data.any (fun c => 65 ≤ c.toNat && c.toNat ≤ 90)

/-- The requested name starts or ends with a whitespace character. -/
def hasEdgeWhitespace (s : String) : Bool :=
  (s.data.head?.any pyIsSpace) || (s.data.getLast?.any pyIsSpace)

/-- A majors table carrying exactly the deduplicated key values of the
key column of hrt, one per row, under the same column name. -/
def dedupKeyTable (hrt : DataFrame) (hc : String) : DataFrame :=
  DataFrame.mk [hc] ((colValues hrt hc).dedup.map (fun v => [v]))

/-- Majors table of the worked example of the spec. -/
def exMajors : DataFrame :=
  DataFrame.mk ["id"] [[Value.int 1], [Value.int 2]]

/-- Attendees table of the worked example of the spec. -/
def exAttendees : DataFrame :=
  DataFrame.mk ["id", "name"] [[Value.int 1, Value.str "X"], [Value.int 3, Value.str "Y"]]

theorem maskRows_map (p : List Value → Bool) (rows : List (List Value)) :
    maskRows rows (rows.map p) = rows.filter p := by
  induction rows with
  | nil => rfl
  | cons r rs ih =>
    by_cases h : p r
    · simp [maskRows, List.filter_cons, h, ih]
    · simp [maskRows, List.filter_cons, h, ih]

theorem maskRows_sublist (rows : List (List Value)) (mask : List Bool) :
    (maskRows rows mask).Sublist rows := by
  induction rows generalizing mask with
  | nil => cases mask <;> simp [maskRows]
  | cons r rs ih =>
    cases mask with
    | nil => simp [maskRows]
    | cons b bs =>
      by_cases h : b = true
      · subst h
        simpa [maskRows] using (ih bs).cons₂ r
      · simp only [Bool.not_eq_true] at h
        subst h
        simpa [maskRows] using (ih bs).cons r

theorem filter_length_partition (p : List Value → Bool) (l : List (List Value)) :
    (l.filter p).length + (l.filter (fun r => !(p r))).length = l.length := by
  induction l with
  | nil => rfl
  | cons r rs ih =>
    by_cases h : p r <;> simp [List.filter_cons, h] <;> omega

theorem indexOf_exists {c : String} {l : List String} (h : c ∈ l) :
    ∃ i, l.indexOf? c = some i := by
  cases hidx : l.indexOf? c with
  | some i => exact ⟨i, rfl⟩
  | none =>
    rw [List.indexOf?_eq_none_iff] at hidx
    exact absurd (hidx c h) (by simp)

theorem colValues_eq {df : DataFrame} {c : String} {i : Nat}
    (h : df.columns.indexOf? c = some i) :
    colValues df c = df.rows.map (fun r => r.getD i Value.empty) := by
  unfold colValues
  rw [h]

theorem rowKey_eq {df : DataFrame} {c : String} {i : Nat}
    (h : df.columns.indexOf? c = some i) (r : List Value) :
    rowKey df c r = r.getD i Value.empty := by
  unfold rowKey
  rw [h]
  rfl

theorem non_hrt_attendees_rows (bbq hrt : DataFrame) (bc hc : String)
    (h : bc ∈ bbq.columns) :
    (non_hrt_attendees bbq bc hrt hc).rows
      = bbq.rows.filter (fun r => !(decide (rowKey bbq bc r ∈ colValues hrt hc))) := by
  obtain ⟨i, hi⟩ := indexOf_exists h
  simp only [non_hrt_attendees, isinList, colValues_eq hi, List.map_map]
  rw [maskRows_map]
  apply List.filter_congr
  intro r _
  simp [Function.comp, rowKey_eq hi r]

theorem hrt_at_bbq_rows (bbq hrt : DataFrame) (bc hc : String)
    (h : bc ∈ bbq.columns) :
    (hrt_at_bbq bbq bc hrt hc).rows
      = bbq.rows.filter (fun r => decide (rowKey bbq bc r ∈ colValues hrt hc)) := by
  obtain ⟨i, hi⟩ := indexOf_exists h
  simp only [hrt_at_bbq, isinList, colValues_eq hi, List.map_map]
  rw [maskRows_map]
  apply List.filter_congr
  intro r _
  simp [Function.comp, rowKey_eq hi r]

theorem charOfNat_toNat {n : Nat} (h : n ≤ 122) : (Char.ofNat n).toNat = n := by
  have hv : n.isValidChar := Or.inl (by omega)
  simp [Char.ofNat, hv, Char.toNat, Char.ofNatAux, UInt32.toNat, BitVec.toNat_ofNatLt]

theorem toNat_pyToLowerChar (c : Char) :
    (pyToLowerChar c).toNat = if 65 ≤ c.toNat ∧ c.toNat ≤ 90 then c.toNat + 32 else c.toNat := by
  unfold pyToLowerChar
  by_cases h : 65 ≤ c.toNat ∧ c.toNat ≤ 90
  · rw [if_pos h, if_pos h]
    exact charOfNat_toNat (by omega)
  · rw [if_neg h, if_neg h]

theorem pyToLowerChar_notUpper (c : Char) :
    ¬(65 ≤ (pyToLowerChar c).toNat ∧ (pyToLowerChar c).toNat ≤ 90) := by
  rw [toNat_pyToLowerChar]
  by_cases h : 65 ≤ c.toNat ∧ c.toNat ≤ 90
  · rw [if_pos h]
    omega
  · rw [if_neg h]
    exact h

theorem pyToLowerChar_eq_self (c : Char) (h : ¬(65 ≤ c.toNat ∧ c.toNat ≤ 90)) :
    pyToLowerChar c = c := by
  unfold pyToLowerChar
  rw [if_neg h]

theorem pyToLowerChar_idem (c : Char) :
    pyToLowerChar (pyToLowerChar c) = pyToLowerChar c :=
  pyToLowerChar_eq_self _ (pyToLowerChar_notUpper c)

theorem pyIsSpace_toNat {c : Char} (h : pyIsSpace c = true) : c.toNat ≤ 32 := by
  unfold pyIsSpace at h
  simp only [Bool.or_eq_true, beq_iff_eq] at h
  rcases h with ((((h | h) | h) | h) | h) | h <;> subst h <;> decide

theorem pyIsSpace_pyToLowerChar (c : Char) :
    pyIsSpace (pyToLowerChar c) = pyIsSpace c := by
  by_cases h : 65 ≤ c.toNat ∧ c.toNat ≤ 90
  · have h1 : pyIsSpace c = false := by
      cases hs : pyIsSpace c
      · rfl
      · have := pyIsSpace_toNat hs
        omega
    have h2 : pyIsSpace (pyToLowerChar c) = false := by
      cases hs : pyIsSpace (pyToLowerChar c)
      · rfl
      · have := pyIsSpace_toNat hs
        rw [toNat_pyToLowerChar, if_pos h] at this
        omega
    rw [h1, h2]
  · rw [pyToLowerChar_eq_self c h]

theorem head_dropWhile_false (p : Char → Bool) :
    ∀ (l : List Char) (c : Char), (l.dropWhile p).head? = some c → p c = false := by
  intro l
  induction l with
  | nil =>
    intro c h
    simp [List.dropWhile] at h
  | cons a t ih =>
    intro c h
    by_cases ha : p a
    · rw [List.dropWhile_cons_of_pos ha] at h
      exact ih c h
    · rw [List.dropWhile_cons_of_neg ha] at h
      simp at h
      subst h
      simpa using ha

theorem getLast_dropWhile_eq (p : Char → Bool) :
    ∀ (l : List Char), l.dropWhile p ≠ [] → (l.dropWhile p).getLast? = l.getLast? := by
  intro l
  induction l with
  | nil =>
    intro h
    simp [List.dropWhile] at h
  | cons a t ih =>
    intro h
    by_cases ha : p a
    · rw [List.dropWhile_cons_of_pos ha] at h ⊢
      rw [ih h]
      rcases t with _ | ⟨b, t2⟩
      · simp [List.dropWhile] at h
      · simp [List.getLast?_cons_cons]
    · rw [List.dropWhile_cons_of_neg ha]

theorem dropWhile_eq_self_of_head (p : Char → Bool) (l : List Char)
    (h : ∀ c, l.head? = some c → p c = false) : l.dropWhile p = l := by
  cases l with
  | nil => rfl
  | cons a t =>
    rw [List.dropWhile_cons_of_neg (by simp [h a rfl])]

theorem pyStrip_getLast {s : List Char} {c : Char}
    (h : (pyStrip s).getLast? = some c) : pyIsSpace c = false := by
  unfold pyStrip at h
  rw [List.getLast?_reverse] at h
  exact head_dropWhile_false pyIsSpace _ c h

theorem pyStrip_head {s : List Char} {c : Char}
    (h : (pyStrip s).head? = some c) : pyIsSpace c = false := by
  unfold pyStrip at h
  rw [List.head?_reverse] at h
  have hne : (((s.dropWhile pyIsSpace).reverse).dropWhile pyIsSpace) ≠ [] := by
    intro he
    rw [he] at h
    simp at h
  rw [getLast_dropWhile_eq pyIsSpace _ hne, List.getLast?_reverse] at h
  exact head_dropWhile_false pyIsSpace _ c h

theorem pyStrip_noSpaceEdges (t : List Char)
    (h1 : ∀ c, t.head? = some c → pyIsSpace c = false)
    (h2 : ∀ c, t.getLast? = some c → pyIsSpace c = false) :
    pyStrip t = t := by
  unfold pyStrip
  rw [dropWhile_eq_self_of_head pyIsSpace t h1]
  rw [dropWhile_eq_self_of_head pyIsSpace t.reverse (by
    intro c hc
    rw [List.head?_reverse] at hc
    exact h2 c hc)]
  exact List.reverse_reverse t

theorem pyLower_idem (l : List Char) : pyLower (pyLower l) = pyLower l := by
  unfold pyLower
  rw [List.map_map]
  apply List.map_congr_left
  intro a _
  exact pyToLowerChar_idem a

theorem pyStrip_pyLower_pyStrip (s : List Char) :
    pyStrip (pyLower (pyStrip s)) = pyLower (pyStrip s) := by
  apply pyStrip_noSpaceEdges
  · intro c hc
    unfold pyLower at hc
    rw [List.head?_map] at hc
    cases hh : (pyStrip s).head? with
    | none =>
      rw [hh] at hc
      simp at hc
    | some a =>
      rw [hh] at hc
      simp at hc
      subst hc
      rw [pyIsSpace_pyToLowerChar]
      exact pyStrip_head hh
  · intro c hc
    unfold pyLower at hc
    rw [List.getLast?_map] at hc
    cases hh : (pyStrip s).getLast? with
    | none =>
      rw [hh] at hc
      simp at hc
    | some a =>
      rw [hh] at hc
      simp at hc
      subst hc
      rw [pyIsSpace_pyToLowerChar]
      exact pyStrip_getLast hh

theorem DataFrame.ext_of (a b : DataFrame) (h1 : a.columns = b.columns)
    (h2 : a.rows = b.rows) : a = b := by
  cases a
  cases b
  cases h1
  cases h2
  rfl

/-- Claim C1: for every majors table with its key column present and every
attendees table with its key column present, the filter returns exactly
the attendee rows whose key value is not among the majors key values;
every result row is a row of the attendees table, and no result row has a
key value occurring in the majors key column. -/
theorem C1_anti_join_contract (hrt bbq : DataFrame) (hc bc : String)
    (hhc : hc ∈ hrt.columns) (hbc : bc ∈ bbq.columns) :
    (non_hrt_attendees bbq bc hrt hc).rows
        = bbq.rows.filter (fun r => !(decide (rowKey bbq bc r ∈ colValues hrt hc)))
      ∧ (∀ r ∈ (non_hrt_attendees bbq bc hrt hc).rows, r ∈ bbq.rows)
      ∧ (∀ r ∈ (non_hrt_attendees bbq bc hrt hc).rows,
          rowKey bbq bc r ∉ colValues hrt hc) := by
  have hrows := non_hrt_attendees_rows bbq hrt bc hc hbc
  refine ⟨hrows, ?_, ?_⟩
  · intro r hr
    rw [hrows] at hr
    exact List.mem_of_mem_filter hr
  · intro r hr
    rw [hrows] at hr
    have hpred := List.of_mem_filter hr
    simpa using hpred

/-- Witness for C1 at the worked example of the spec. -/
theorem C1_anti_join_contract_witness :
    (non_hrt_attendees exAttendees "id" exMajors "id").rows
      = exAttendees.rows.filter
          (fun r => !(decide (rowKey exAttendees "id" r ∈ colValues exMajors "id"))) :=
  (C1_anti_join_contract exMajors exAttendees "id" "id" (by decide) (by decide)).1

/-- Claim C2: for every pair of tables with valid key columns, the row
count of the filter result plus the row count of the complement equals the
row count of the attendees table. -/
theorem C2_partition_count (hrt bbq : DataFrame) (hc bc : String)
    (hhc : hc ∈ hrt.columns) (hbc : bc ∈ bbq.columns) :
    (non_hrt_attendees bbq bc hrt hc).rows.length
        + (hrt_at_bbq bbq bc hrt hc).rows.length
      = bbq.rows.length := by
  rw [non_hrt_attendees_rows bbq hrt bc hc hbc, hrt_at_bbq_rows bbq hrt bc hc hbc,
    Nat.add_comm]
  exact filter_length_partition _ bbq.rows

/-- Witness for C2 at the worked example of the spec. -/
theorem C2_partition_count_witness :
    (non_hrt_attendees exAttendees "id" exMajors "id").rows.length
        + (hrt_at_bbq exAttendees "id" exMajors "id").rows.length
      = exAttendees.rows.length :=
  C2_partition_count exMajors exAttendees "id" "id" (by decide) (by decide)

/-- Claim C4: an empty key value participates in the comparison literally:
when the majors key column holds an empty value, every attendee row whose
key value is empty counts as a match and is excluded from the result. -/
theorem C4_empty_key_literal (hrt bbq : DataFrame) (hc bc : String)
    (hbc : bc ∈ bbq.columns) (hA : Value.empty ∈ colValues hrt hc)
    (r : List Value) (hr : r ∈ bbq.rows) (hk : rowKey bbq bc r = Value.empty) :
    r ∈ (hrt_at_bbq bbq bc hrt hc).rows
      ∧ r ∉ (non_hrt_attendees bbq bc hrt hc).rows := by
  constructor
  · rw [hrt_at_bbq_rows bbq hrt bc hc hbc, List.mem_filter]
    refine ⟨hr, ?_⟩
    rw [hk]
    exact decide_eq_true hA
  · rw [non_hrt_attendees_rows bbq hrt bc hc hbc]
    intro hmem
    have hpred := List.of_mem_filter hmem
    rw [hk] at hpred
    simp at hpred
    exact hpred hA

/-- Witness for C4: both tables carry an empty key value. -/
theorem C4_empty_key_literal_witness :
    [Value.empty] ∈ (hrt_at_bbq (DataFrame.mk ["id"] [[Value.empty]]) "id"
        (DataFrame.mk ["id"] [[Value.empty]]) "id").rows
      ∧ [Value.empty] ∉ (non_hrt_attendees (DataFrame.mk ["id"] [[Value.empty]]) "id"
          (DataFrame.mk ["id"] [[Value.empty]]) "id").rows :=
  C4_empty_key_literal (DataFrame.mk ["id"] [[Value.empty]])
    (DataFrame.mk ["id"] [[Value.empty]]) "id" "id" (by decide) (by decide)
    [Value.empty] (by decide) (by decide)

/-- Claim C6: when the majors key column has no values at all, the filter
passes every attendee row through unchanged and the result equals the
attendees table. -/
theorem C6_empty_majors_identity (hrt bbq : DataFrame) (hc bc : String)
    (hbc : bc ∈ bbq.columns) (hA : colValues hrt hc = []) :
    non_hrt_attendees bbq bc hrt hc = bbq := by
  have hrows := non_hrt_attendees_rows bbq hrt bc hc hbc
  rw [hA] at hrows
  simp at hrows
  exact DataFrame.ext_of _ _ rfl hrows

/-- Witness for C6: a majors table with the key column but no rows. -/
theorem C6_empty_majors_identity_witness :
    non_hrt_attendees exAttendees "id" (DataFrame.mk ["id"] []) "id" = exAttendees :=
  C6_empty_majors_identity (DataFrame.mk ["id"] []) exAttendees "id" "id"
    (by decide) (by decide)

/-- Claim C9: for valid key columns the result is a sublist of the
attendee rows: kept rows appear in their original relative order, each
kept row is exactly an original row, and the result carries exactly the
attendee columns. -/
theorem C9_order_row_preservation (hrt bbq : DataFrame) (hc bc : String)
    (hhc : hc ∈ hrt.columns) (hbc : bc ∈ bbq.columns) :
    (non_hrt_attendees bbq bc hrt hc).rows.Sublist bbq.rows
      ∧ (non_hrt_attendees bbq bc hrt hc).columns = bbq.columns :=
  ⟨maskRows_sublist bbq.rows _, rfl⟩

/-- Witness for C9 at the worked example of the spec. -/
theorem C9_order_row_preservation_witness :
    (non_hrt_attendees exAttendees "id" exMajors "id").rows.Sublist exAttendees.rows
      ∧ (non_hrt_attendees exAttendees "id" exMajors "id").columns = exAttendees.columns :=
  C9_order_row_preservation exMajors exAttendees "id" "id" (by decide) (by decide)

/-- Claim C3: when the selected key column is absent from either loaded
table, processing is rejected: no filtered result is produced, and the
reported errors name each table missing the column together with that
column. -/
theorem C3_missing_column_rejected (hrt bbq : DataFrame) (col : String)
    (h : col ∉ hrt.columns ∨ col ∉ bbq.columns) :
    (∀ df, mainProcess hrt bbq col ≠ ProcessResult.filtered df)
      ∧ (∃ errs, mainProcess hrt bbq col = ProcessResult.columnErrors errs
          ∧ (col ∉ hrt.columns → ("HRT Majors", col) ∈ errs)
          ∧ (col ∉ bbq.columns → ("BBQ Attendees", col) ∈ errs)) := by
  cases hh : validate_dataframe (some hrt) col with
  | true =>
    cases hb : validate_dataframe (some bbq) col with
    | true =>
      exfalso
      simp [validate_dataframe] at hh hb
      rcases h with h | h
      · exact h hh
      · exact h hb
    | false =>
      constructor
      · intro df hdf
        simp [mainProcess, hh, hb] at hdf
      · refine ⟨[("BBQ Attendees", col)], ?_, ?_, ?_⟩
        · simp [mainProcess, hh, hb]
        · intro hcol
          exfalso
          simp [validate_dataframe] at hh
          exact hcol hh
        · intro _
          simp
  | false =>
    cases hb : validate_dataframe (some bbq) col with
    | true =>
      constructor
      · intro df hdf
        simp [mainProcess, hh, hb] at hdf
      · refine ⟨[("HRT Majors", col)], ?_, ?_, ?_⟩
        · simp [mainProcess, hh, hb]
        · intro _
          simp
        · intro hcol
          exfalso
          simp [validate_dataframe] at hb
          exact hcol hb
    | false =>
      constructor
      · intro df hdf
        simp [mainProcess, hh, hb] at hdf
      · refine ⟨[("HRT Majors", col), ("BBQ Attendees", col)], ?_, ?_, ?_⟩
        · simp [mainProcess, hh, hb]
        · intro _
          simp
        · intro _
          simp

/-- Witness for C3: the majors table lacks the requested column. -/
theorem C3_missing_column_rejected_witness :
    (∀ df, mainProcess (DataFrame.mk ["name"] []) exAttendees "id"
        ≠ ProcessResult.filtered df)
      ∧ (∃ errs, mainProcess (DataFrame.mk ["name"] []) exAttendees "id"
            = ProcessResult.columnErrors errs
          ∧ ("id" ∉ (DataFrame.mk ["name"] [] : DataFrame).columns
              → ("HRT Majors", "id") ∈ errs)
          ∧ ("id" ∉ exAttendees.columns → ("BBQ Attendees", "id") ∈ errs)) :=
  C3_missing_column_rejected (DataFrame.mk ["name"] []) exAttendees "id"
    (Or.inl (by decide))

/-- Claim C5: a data-type mismatch between the two key columns only
raises the warning flag; the filter still runs and still compares values
literally, so a string key on the attendee side never matches an integer
key on the majors side. -/
theorem C5_type_mismatch_nonfatal (hrt bbq : DataFrame) (hc bc : String)
    (hhc : hc ∈ hrt.columns) (hbc : bc ∈ bbq.columns)
    (hw : dtype_warning hrt hc bbq bc = true) :
    (testing_main hrt bbq hc bc).dtypeWarn = true
      ∧ (testing_main hrt bbq hc bc).result = some (non_hrt_attendees bbq bc hrt hc)
      ∧ (∀ r ∈ bbq.rows, (∀ v ∈ colValues hrt hc, ∃ n : Int, v = Value.int n) →
          (∃ s : String, rowKey bbq bc r = Value.str s) →
          r ∈ (non_hrt_attendees bbq bc hrt hc).rows) := by
  refine ⟨?_, ?_, ?_⟩
  · simp [testing_main, hhc, hbc, hw]
  · simp [testing_main, hhc, hbc]
  · intro r hr hint hstr
    rw [non_hrt_attendees_rows bbq hrt bc hc hbc, List.mem_filter]
    refine ⟨hr, ?_⟩
    simp only [Bool.not_eq_true', decide_eq_false_iff_not]
    intro hmem
    obtain ⟨s, hs⟩ := hstr
    obtain ⟨n, hn⟩ := hint _ hmem
    rw [hs] at hn
    exact Value.noConfusion hn

/-- Witness for C5: an integer majors key against a string attendee key
of the same digits raises the warning yet the attendee row is kept. -/
theorem C5_type_mismatch_nonfatal_witness :
    (testing_main (DataFrame.mk ["id"] [[Value.int 123]])
        (DataFrame.mk ["id"] [[Value.str "123"]]) "id" "id").dtypeWarn = true
      ∧ (testing_main (DataFrame.mk ["id"] [[Value.int 123]])
            (DataFrame.mk ["id"] [[Value.str "123"]]) "id" "id").result
          = some (non_hrt_attendees (DataFrame.mk ["id"] [[Value.str "123"]]) "id"
              (DataFrame.mk ["id"] [[Value.int 123]]) "id")
      ∧ (∀ r ∈ (DataFrame.mk ["id"] [[Value.str "123"]] : DataFrame).rows,
          (∀ v ∈ colValues (DataFrame.mk ["id"] [[Value.int 123]]) "id",
              ∃ n : Int, v = Value.int n) →
          (∃ s : String,
              rowKey (DataFrame.mk ["id"] [[Value.str "123"]]) "id" r = Value.str s) →
          r ∈ (non_hrt_attendees (DataFrame.mk ["id"] [[Value.str "123"]]) "id"
              (DataFrame.mk ["id"] [[Value.int 123]]) "id").rows) :=
  C5_type_mismatch_nonfatal (DataFrame.mk ["id"] [[Value.int 123]])
    (DataFrame.mk ["id"] [[Value.str "123"]]) "id" "id"
    (by decide) (by decide) (by decide)

theorem colValues_dedupKeyTable (hrt : DataFrame) (hc : String) :
    colValues (dedupKeyTable hrt hc) hc = (colValues hrt hc).dedup := by
  have hidx : (dedupKeyTable hrt hc).columns.indexOf? hc = some 0 := by
    simp [dedupKeyTable, List.indexOf?, List.findIdx?_cons]
  rw [colValues_eq hidx]
  simp only [dedupKeyTable, List.map_map]
  rw [show ((fun r => List.getD r 0 Value.empty) ∘ fun v : Value => [v]) = id from
    funext (fun v => rfl)]
  exact List.map_id _

/-- Claim C7: duplicate key values on the majors side are harmless (the
filter agrees with the one run against the deduplicated key table), while
duplicate attendee rows are each tested independently: a row keeps its
full multiplicity when its key is absent from the majors keys and is
dropped entirely otherwise. -/
theorem C7_duplicate_semantics (hrt bbq : DataFrame) (hc bc : String)
    (hbc : bc ∈ bbq.columns) :
    non_hrt_attendees bbq bc hrt hc
        = non_hrt_attendees bbq bc (dedupKeyTable hrt hc) hc
      ∧ (∀ r : List Value,
          (non_hrt_attendees bbq bc hrt hc).rows.count r
            = if rowKey bbq bc r ∈ colValues hrt hc then 0 else bbq.rows.count r) := by
  constructor
  · apply DataFrame.ext_of
    · rfl
    rw [non_hrt_attendees_rows bbq hrt bc hc hbc,
      non_hrt_attendees_rows bbq (dedupKeyTable hrt hc) bc hc hbc]
    apply List.filter_congr
    intro r _
    rw [colValues_dedupKeyTable]
    congr 1
    rw [decide_eq_decide]
    exact List.mem_dedup.symm
  · intro r
    rw [non_hrt_attendees_rows bbq hrt bc hc hbc]
    by_cases hmem : rowKey bbq bc r ∈ colValues hrt hc
    · rw [if_pos hmem, List.count_eq_zero]
      intro hin
      have hpred := List.of_mem_filter hin
      simp [hmem] at hpred
    · rw [if_neg hmem]
      exact List.count_filter (by simp [hmem])

/-- Witness for C7: duplicated majors keys and a duplicated attendee row. -/
theorem C7_duplicate_semantics_witness :
    non_hrt_attendees (DataFrame.mk ["id"] [[Value.int 3], [Value.int 3], [Value.int 1]])
          "id" (DataFrame.mk ["id"] [[Value.int 1], [Value.int 1], [Value.int 2]]) "id"
        = non_hrt_attendees
            (DataFrame.mk ["id"] [[Value.int 3], [Value.int 3], [Value.int 1]]) "id"
            (dedupKeyTable
              (DataFrame.mk ["id"] [[Value.int 1], [Value.int 1], [Value.int 2]]) "id")
            "id"
      ∧ (∀ r : List Value,
          (non_hrt_attendees
              (DataFrame.mk ["id"] [[Value.int 3], [Value.int 3], [Value.int 1]]) "id"
              (DataFrame.mk ["id"] [[Value.int 1], [Value.int 1], [Value.int 2]])
              "id").rows.count r
            = if rowKey (DataFrame.mk ["id"] [[Value.int 3], [Value.int 3], [Value.int 1]])
                  "id" r
                ∈ colValues (DataFrame.mk ["id"] [[Value.int 1], [Value.int 1], [Value.int 2]])
                    "id"
              then 0
              else (DataFrame.mk ["id"] [[Value.int 3], [Value.int 3], [Value.int 1]]
                : DataFrame).rows.count r) :=
  C7_duplicate_semantics
    (DataFrame.mk ["id"] [[Value.int 1], [Value.int 1], [Value.int 2]])
    (DataFrame.mk ["id"] [[Value.int 3], [Value.int 3], [Value.int 1]])
    "id" "id" (by decide)

/-- Claim C8: the column-name normalization (trim surrounding whitespace,
then lowercase) is idempotent. -/
theorem C8_normalize_idempotent (s : String) :
    normalize_column (normalize_column s) = normalize_column s := by
  unfold normalize_column
  congr 1
  show pyLower (pyStrip (pyLower (pyStrip s.data))) = pyLower (pyStrip s.data)
  rw [pyStrip_pyLower_pyStrip]
  exact pyLower_idem (pyStrip s.data)

theorem normalize_column_clean (u : String) :
    hasUpperAscii (normalize_column u) = false
      ∧ hasEdgeWhitespace (normalize_column u) = false := by
  constructor
  · unfold hasUpperAscii normalize_column
    rw [List.any_eq_false]
    intro c hc
    have hc2 : c ∈ pyLower (pyStrip u.data) := hc
    unfold pyLower at hc2
    obtain ⟨a, ha, rfl⟩ := List.mem_map.mp hc2
    have hup := pyToLowerChar_notUpper a
    rw [Bool.not_eq_true]
    show (decide (65 ≤ (pyToLowerChar a).toNat)
        && decide ((pyToLowerChar a).toNat ≤ 90)) = false
    rcases Nat.lt_or_ge ((pyToLowerChar a).toNat) 65 with hlt | hge
    · rw [decide_eq_false (by omega : ¬(65 ≤ (pyToLowerChar a).toNat)), Bool.false_and]
    · rw [decide_eq_false (by omega : ¬((pyToLowerChar a).toNat ≤ 90)), Bool.and_false]
  · unfold hasEdgeWhitespace normalize_column
    rw [Bool.or_eq_false_iff]
    constructor
    · show ((pyLower (pyStrip u.data)).head?.any pyIsSpace) = false
      unfold pyLower
      rw [List.head?_map]
      cases hh : (pyStrip u.data).head? with
      | none => rfl
      | some a =>
        simp only [Option.map_some', Option.any_some]
        rw [pyIsSpace_pyToLowerChar]
        exact pyStrip_head hh
    · show ((pyLower (pyStrip u.data)).getLast?.any pyIsSpace) = false
      unfold pyLower
      rw [List.getLast?_map]
      cases hh : (pyStrip u.data).getLast? with
      | none => rfl
      | some a =>
        simp only [Option.map_some', Option.any_some]
        rw [pyIsSpace_pyToLowerChar]
        exact pyStrip_getLast hh

/-- Claim C10: validation is an exact string match against the normalized
column names of the loaded table, so a requested name with an uppercase
ASCII letter or with leading or trailing whitespace always fails
validation, whatever the original headers were. -/
theorem C10_validation_exact_match (raw : DataFrame) (s : String)
    (h : hasUpperAscii s = true ∨ hasEdgeWhitespace s = true) :
    validate_dataframe (some (load_excel_file raw)) s = false := by
  have hnot : s ∉ (load_excel_file raw).columns := by
    intro hmem
    have hmem2 : s ∈ raw.columns.map normalize_column := hmem
    obtain ⟨u, hu, hequ⟩ := List.mem_map.mp hmem2
    have hclean := normalize_column_clean u
    rw [hequ] at hclean
    rcases h with h | h
    · simp [hclean.1] at h
    · simp [hclean.2] at h
  unfold validate_dataframe
  exact decide_eq_false hnot

/-- Witness for C10: the raw header Bronco ID is normalized to lowercase,
so requesting the original uppercase spelling fails validation. -/
theorem C10_validation_exact_match_witness :
    validate_dataframe (some (load_excel_file (DataFrame.mk ["Bronco ID"] [])))
        "Bronco ID"
      = false :=
  C10_validation_exact_match (DataFrame.mk ["Bronco ID"] []) "Bronco ID"
    (Or.inl (by decide))
